import Mathlib

/-!
Shallow embedding of the Gleam language-server core:
`src/compiler-cli/src/lsp/server.rs` (the `LanguageServer` orchestrator and
its query handlers) and `src/compiler-core/src/warning.rs`
(`Warning::to_diagnostic`).

Conventions of the embedding:
* Rust `String` / `SmolStr` / `PathBuf` / `Url` are Lean `String`
  (a `Url` is represented by its path component, which is the only part the
  server reads via `uri.path()`).
* Rust `Result<T, Error>` is `Except Error T`; a Rust panic (an
  `expect` firing) is the `Except.error` branch of an outer
  `Except Panic _` layer, so that a crashing evaluation is observable.
* Maps (`HashMap`, `im::HashMap`) are association lists; iteration order is
  the list order.
* External collaborators that live in this repository but outside the two
  provided source files (the project compiler, the formatter, the
  `uri_to_module_name` mapping, `LineNumbers`, `FeedbackBookKeeper`) are
  modelled from the spec; each such definition says so in its doc comment.
-/

/-- A byte-offset range within a module's source text
(`gleam_core::ast::SrcSpan`). -/
structure SrcSpan where
  start : Nat
  «end» : Nat
deriving DecidableEq, Repr

namespace diagnostic

/-- Rust `gleam_core::diagnostic::Level`. -/
inductive Level where
  | Warning
  | Error
deriving DecidableEq, Repr

/-- Rust `gleam_core::diagnostic::Label`: a labelled span. -/
structure Label where
  text : Option String
  span : SrcSpan
deriving DecidableEq, Repr

/-- Rust `gleam_core::diagnostic::Location`: path, full source text, primary
label and extra labels. -/
structure Location where
  path : String
  src : String
  label : Label
  extra_labels : List Label
deriving DecidableEq, Repr

end diagnostic

/-- Rust `gleam_core::diagnostic::Diagnostic`: a display-ready diagnostic. -/
structure Diagnostic where
  title : String
  text : String
  hint : Option String
  level : diagnostic.Level
  location : Option diagnostic.Location
deriving DecidableEq, Repr

/-- Rust `gleam_core::ast::TodoKind`. -/
inductive TodoKind where
  | Keyword
  | EmptyFunction
  | IncompleteUse
deriving DecidableEq, Repr

/-- Modelled from the spec: a reference to an inferred type
(`Arc<Type>` in `gleam_core::type_`). The code only asks a type whether it
is an unresolved type variable (`is_variable`) and for its pretty-printed
form (`Printer::new().pretty_print(typ, 0)`), so the model carries exactly
those two observations. -/
structure Typ where
  is_variable : Bool
  pretty : String
deriving DecidableEq, Repr

namespace type_

/-- Rust `gleam_core::type_::Warning`: the variants and the fields read by
`Warning::to_diagnostic` in `src/compiler-core/src/warning.rs` (fields the
match arms discard with `..` are omitted). -/
inductive Warning where
  | Todo (kind : TodoKind) (location : SrcSpan) (typ : Typ)
  | ImplicitlyDiscardedResult (location : SrcSpan)
  | UnusedLiteral (location : SrcSpan)
  | NoFieldsRecordUpdate (location : SrcSpan)
  | AllFieldsRecordUpdate (location : SrcSpan)
  | UnusedType (location : SrcSpan) (imported : Bool)
  | UnusedConstructor (location : SrcSpan) (imported : Bool)
  | UnusedImportedModule (location : SrcSpan)
  | UnusedImportedValue (location : SrcSpan)
  | UnusedPrivateModuleConstant (location : SrcSpan)
  | UnusedPrivateFunction (location : SrcSpan)
  | UnusedVariable (location : SrcSpan) (name : String)
deriving DecidableEq, Repr

/-- The source span carried by each `type_::Warning` variant. -/
def Warning.location : Warning → SrcSpan
  | .Todo _ location _ => location
  | .ImplicitlyDiscardedResult location => location
  | .UnusedLiteral location => location
  | .NoFieldsRecordUpdate location => location
  | .AllFieldsRecordUpdate location => location
  | .UnusedType location _ => location
  | .UnusedConstructor location _ => location
  | .UnusedImportedModule location => location
  | .UnusedImportedValue location => location
  | .UnusedPrivateModuleConstant location => location
  | .UnusedPrivateFunction location => location
  | .UnusedVariable location _ => location

end type_

/-- Rust `gleam_core::Warning` (`src/compiler-core/src/warning.rs`): the single
`Type` variant carrying the module path, the full module source and the
type-checker warning. -/
structure Warning where
  path : String
  src : String
  warning : type_.Warning
deriving DecidableEq, Repr

namespace Warning

/-- Rust `Warning::to_diagnostic` from `src/compiler-core/src/warning.rs`,
translated arm by arm. -/
def to_diagnostic (w : Warning) : Diagnostic :=
  match w with
  | ⟨path, src, warning⟩ =>
    match warning with
    | .Todo kind location typ =>
      let base := "This code will crash if it is run. Be sure to finish it before\nrunning your program."
      let title : String :=
        match kind with
        | .Keyword => "Todo found"
        | .EmptyFunction => "Unimplemented function"
        | .IncompleteUse => "Incomplete use expression"
      let text :=
        match kind with
        | .IncompleteUse =>
          base ++ "\nA use expression must always be followed by at least one more\nexpression."
        | _ => base
      let text :=
        if !typ.is_variable then
          text ++ "\n\nHint: I think its type is `" ++ typ.pretty ++ "`.\n"
        else text
      { title := title
        text := text
        level := .Warning
        location := some
          { path := path
            src := src
            label := { text := some "This code is incomplete", span := location }
            extra_labels := [] }
        hint := none }
    | .ImplicitlyDiscardedResult location =>
      { title := "Unused result value"
        text := ""
        hint := some "If you are sure you don't need it you can assign it to `_`"
        level := .Warning
        location := some
          { path := path
            src := src
            label := { text := some "The Result value created here is unused", span := location }
            extra_labels := [] } }
    | .UnusedLiteral location =>
      { title := "Unused literal"
        text := ""
        hint := some "You can safely remove it."
        level := .Warning
        location := some
          { path := path
            src := src
            label := { text := some "This value is never used", span := location }
            extra_labels := [] } }
    | .NoFieldsRecordUpdate location =>
      { title := "Fieldless record update"
        text := ""
        hint := some "Add some fields to change or replace it with the record itself."
        level := .Warning
        location := some
          { path := path
            src := src
            label := { text := some "This record update doesn't change any fields.", span := location }
            extra_labels := [] } }
    | .AllFieldsRecordUpdate location =>
      { title := "Redundant record update"
        text := ""
        hint := some "It is better style to use the record creation syntax."
        level := .Warning
        location := some
          { path := path
            src := src
            label := { text := some "This record update specifies all fields", span := location }
            extra_labels := [] } }
    | .UnusedType location imported =>
      { title := if imported then "Unused imported type" else "Unused private type"
        text := ""
        hint := some "You can safely remove it."
        level := .Warning
        location := some
          { path := path
            src := src
            label :=
              { text := some (if imported then "This imported type is never used."
                  else "This private type is never used.")
                span := location }
            extra_labels := [] } }
    | .UnusedConstructor location imported =>
      { title := if imported then "Unused imported item" else "Unused private constructor"
        text := ""
        hint := some "You can safely remove it."
        level := .Warning
        location := some
          { path := path
            src := src
            label :=
              { text := some (if imported then "This imported constructor is never used."
                  else "This private constructor is never used.")
                span := location }
            extra_labels := [] } }
    | .UnusedImportedModule location =>
      { title := "Unused imported module"
        text := ""
        hint := some "You can safely remove it."
        level := .Warning
        location := some
          { path := path
            src := src
            label := { text := some "This imported module is never used.", span := location }
            extra_labels := [] } }
    | .UnusedImportedValue location =>
      { title := "Unused imported value"
        text := ""
        hint := some "You can safely remove it."
        level := .Warning
        location := some
          { path := path
            src := src
            label := { text := some "This imported value is never used.", span := location }
            extra_labels := [] } }
    | .UnusedPrivateModuleConstant location =>
      { title := "Unused private constant"
        text := ""
        hint := some "You can safely remove it."
        level := .Warning
        location := some
          { path := path
            src := src
            label := { text := some "This private constant is never used.", span := location }
            extra_labels := [] } }
    | .UnusedPrivateFunction location =>
      { title := "Unused private function"
        text := ""
        hint := some "You can safely remove it."
        level := .Warning
        location := some
          { path := path
            src := src
            label := { text := some "This private function is never used.", span := location }
            extra_labels := [] } }
    | .UnusedVariable location name =>
      { title := "Unused variable"
        text := ""
        hint := some ("You can ignore it with an underscore: `_" ++ name ++ "`.")
        level := .Warning
        location := some
          { path := path
            src := src
            label := { text := some "This variable is never used.", span := location }
            extra_labels := [] } }

end Warning

/-- C7: the Warning-to-Diagnostic mapping is a total function producing
exactly one Diagnostic per Warning (it is a Lean `def`, hence total and
deterministic), and for every Warning the produced Diagnostic has a
primary label whose span equals the Warning's source span, with the module
path and full source text carried through unchanged. -/
theorem warning_to_diagnostic_carries_span_path_src (w : Warning) :
    (w.to_diagnostic).location.map (fun l => l.label.span) = some w.warning.location ∧
    (w.to_diagnostic).location.map (fun l => l.path) = some w.path ∧
    (w.to_diagnostic).location.map (fun l => l.src) = some w.src ∧
    (w.to_diagnostic).location.map (fun l => l.extra_labels) = some [] := by
  obtain ⟨path, src, warning⟩ := w
  cases warning <;> simp [Warning.to_diagnostic, type_.Warning.location]

namespace lsp

/-- Rust `lsp_types::Position`: zero-based line and character. -/
structure Position where
  line : Nat
  character : Nat
deriving DecidableEq, Repr

/-- Rust `lsp_types::Range`. -/
structure Range where
  start : Position
  «end» : Position
deriving DecidableEq, Repr

/-- Rust `lsp_types::TextEdit`. -/
structure TextEdit where
  range : Range
  new_text : String
deriving DecidableEq, Repr

/-- Rust `lsp_types::Location`: a file URI plus a range. -/
structure Location where
  uri : String
  range : Range
deriving DecidableEq, Repr

/-- Rust `lsp_types::Hover`: the server always builds
`HoverContents::Scalar(MarkedString::String(contents))`, so the model keeps
just the contents string. -/
structure Hover where
  contents : String
  range : Option Range
deriving DecidableEq, Repr

/-- Rust `lsp_types::CompletionItem`: the fields the server sets explicitly; all
other fields are left at `Default::default()` and are not observable here. -/
structure CompletionItem where
  label : String
  kind : Option Nat
  documentation : Option String
deriving DecidableEq, Repr

/-- Rust `lsp_types::TextDocumentPositionParams` (URI represented by its path). -/
structure TextDocumentPositionParams where
  uri : String
  position : Position
deriving DecidableEq, Repr

end lsp

/-- Modelled from the spec: `gleam_core::line_numbers::LineNumbers` is not
among the provided sources. Per §3 it is derived from the source text,
with lines delimited by line-feed characters and columns counted by code
point; the model stores the text as its character list and computes
offsets over it. -/
structure LineNumbers where
  chars : List Char
deriving DecidableEq, Repr

/-- Modelled from the spec: `LineNumbers::new(&module.code)`. -/
def LineNumbers.new (code : String) : LineNumbers :=
  ⟨code.data⟩

/-- Modelled from the spec: the character offsets at which each line of the
text starts (line 0 starts at offset 0; a new line starts after each
line feed). -/
def lineStartsAux : List Char → Nat → List Nat
  | [], _ => []
  | c :: cs, i => if c = '\n' then (i + 1) :: lineStartsAux cs (i + 1) else lineStartsAux cs (i + 1)

/-- Modelled from the spec: offsets of line beginnings. -/
def LineNumbers.line_starts (ln : LineNumbers) : List Nat :=
  0 :: lineStartsAux ln.chars 0

/-- Modelled from the spec: `LineNumbers::byte_index(line, character)`
converts an editor `(line, character)` pair to an offset into the text. -/
def LineNumbers.byte_index (ln : LineNumbers) (line character : Nat) : Nat :=
  ln.line_starts.getD line 0 + character

/-- Modelled from the spec: the `(line, character)` pair of a given offset
(the number of line feeds before the offset, and the distance from the
last line start). -/
def LineNumbers.line_and_column (ln : LineNumbers) (offset : Nat) : lsp.Position :=
  let before := ln.chars.take offset
  let line := (before.filter (fun c => c = '\n')).length
  let character := ((before.reverse.takeWhile (fun c => ¬ c = '\n'))).length
  ⟨line, character⟩

/-- Modelled from the spec: `src_span_to_lsp_range` (defined in the lsp
module outside the provided sources) converts a byte span to an editor
range using a `LineNumbers`. -/
def src_span_to_lsp_range (span : SrcSpan) (line_numbers : LineNumbers) : lsp.Range :=
  ⟨line_numbers.line_and_column span.start, line_numbers.line_and_column span.«end»⟩

/-- Rust `gleam_core::build::Origin` of a module: project source or project
test. (Dependency modules are not held in `compiler.modules`; they appear
only through `get_importable_modules`.) -/
inductive Origin where
  | Src
  | Test
deriving DecidableEq, Repr

/-- Rust `Origin::is_src`. -/
def Origin.is_src : Origin → Bool
  | .Src => true
  | .Test => false

/-- A definition site as returned by `Located::definition_location`:
`module` is `None` when the definition is in the current module, `Some
name` when it is in module `name`; `span` is the definition's span. -/
structure DefinitionLocation where
  module : Option String
  span : SrcSpan
deriving DecidableEq, Repr

/-- The statement constructors the server distinguishes: `completion`
matches `Statement::Import(Import { .. })` and lumps every other
statement together. -/
inductive StatementKind where
  | Import
  | Other
deriving DecidableEq, Repr

/-- A statement node as observed by the server: its constructor kind and
its definition location, if any. -/
structure StatementNode where
  kind : StatementKind
  definition_location : Option DefinitionLocation
deriving DecidableEq, Repr

/-- An expression node as observed by the server: `expression.type_()`
(pretty-printed via `Printer`, so modelled as a `Typ`),
`expression.location()` and its definition location. -/
structure ExpressionNode where
  type_ : Typ
  location : SrcSpan
  definition_location : Option DefinitionLocation
deriving DecidableEq, Repr

/-- Rust `gleam_core::build::Located`: the node found at a position, either a
statement or an expression. -/
inductive Located where
  | Statement : StatementNode → Located
  | Expression : ExpressionNode → Located
deriving DecidableEq, Repr

/-- Rust `Located::definition_location`. -/
def Located.definition_location : Located → Option DefinitionLocation
  | .Statement s => s.definition_location
  | .Expression e => e.definition_location

namespace build

/-- Rust `gleam_core::build::Module` as read by the server: its source text
(`module.code`), its origin, and `module.find_node(byte_index)` (the AST
search, external to the provided sources, modelled as the module's
position-to-node function). -/
structure Module where
  code : String
  origin : Origin
  find_node : Nat → Option Located

end build

/-- The per-module metadata held in `compiler.sources` and read by
`goto_definition`: the module's file path and its `LineNumbers`. -/
structure SourceInfo where
  path : String
  line_numbers : LineNumbers
deriving DecidableEq, Repr

/-- Rust `gleam_core::Error`: the error type threaded through `Result`. Its
internal structure is not examined by the server, so it is modelled as an
abstract message. -/
structure Error where
  msg : String
deriving DecidableEq, Repr

/-- A Rust panic message (from an `expect` that fired). -/
abbrev Panic := String

/-- The fire-and-forget progress notifications sent through
`ProgressReporter` plus, for ordering evidence, the moment the external
`compiler.compile()` call happens. -/
inductive ProgressEvent where
  | started
  | compile_call
  | finished
deriving DecidableEq, Repr

/-- Association-list lookup standing in for `HashMap::get`. -/
def alistGet {α : Type} (l : List (String × α)) (k : String) : Option α :=
  (l.find? (fun p => p.1 == k)).map (fun p => p.2)

/-- Association-list insert-or-replace standing in for `HashMap::insert`. -/
def alistInsert {α : Type} (l : List (String × α)) (k : String) (v : α) : List (String × α) :=
  (k, v) :: l.filter (fun p => !(p.1 == k))

/-- Association-list removal standing in for `HashMap::remove`. -/
def alistRemove {α : Type} (l : List (String × α)) (k : String) : List (String × α) :=
  l.filter (fun p => !(p.1 == k))

/-- Rust `LspProjectCompiler` as observed by `server.rs`: the module map
(`compiler.modules`), the metadata map (`compiler.sources`), the keys of
`project_compiler.get_importable_modules()`, and the warning accumulator
(`compiler.warnings`, a `VectorWarningEmitterIO` drained by `take`).
The external `compiler.compile()` collaborator is deterministic given the
current overlay contents (spec §1), so its behaviour is part of the
state: `compile_outcome` is the result it returns and `compile_warnings`
the warnings it emits into the accumulator while running. -/
structure LspProjectCompiler where
  modules : List (String × build.Module)
  sources : List (String × SourceInfo)
  importable_modules : List String
  warnings : List Warning
  compile_outcome : Except Error (List String)
  compile_warnings : List Warning

/-- Modelled from the spec: the `Feedback` bundle produced by
`FeedbackBookKeeper` (`lsp/feedback.rs` is not among the provided
sources). Per spec §3/§4.3 it is assembled, as a pure function, from the
optional compile error, the modules compiled since the previous Feedback,
and the warnings emitted during that span. -/
structure Feedback where
  compile_error : Option Error
  modules_touched : List String
  warnings : List Warning
deriving DecidableEq, Repr

namespace FeedbackBookKeeper

/-- Modelled from the spec: `FeedbackBookKeeper::diagnostics` (success
path, no compile error). -/
def diagnostics (modules : List String) (warnings : List Warning) : Feedback :=
  { compile_error := none, modules_touched := modules, warnings := warnings }

/-- Modelled from the spec: `FeedbackBookKeeper::diagnostics_with_error`. -/
def diagnostics_with_error (e : Error) (modules : List String) (warnings : List Warning) :
    Feedback :=
  { compile_error := some e, modules_touched := modules, warnings := warnings }

end FeedbackBookKeeper

/-- Rust `Response<T>` from `server.rs`: the query payload plus the Feedback. -/
structure Response (α : Type) where
  payload : Option α
  feedback : Feedback

/-- The external collaborators used by the handlers but living outside the
provided sources: `uri_to_module_name(uri, project_root)` (modelled from
the spec: a deterministic path-to-name mapping that returns `none` when
the URI does not correspond to a project module) and
`gleam_core::format::pretty` (modelled from the spec: a pure
`format(text, path)` function). -/
structure Collab where
  uri_to_module_name : String → String → Option String
  format_pretty : String → String → Except Error String

/-- The `LanguageServer` state from `server.rs`. `fs_proxy` is a
`FileSystemProxy<ProjectIO>`: `mem_cache` is its in-memory overlay map and
`disk` the on-disk content it falls back to. `progress_log` records the
`ProgressReporter` notifications in order. -/
structure LanguageServer where
  project_root : String
  compiler : Option LspProjectCompiler
  mem_cache : List (String × String)
  disk : List (String × String)
  modules_compiled_since_last_feedback : List String
  progress_log : List ProgressEvent

namespace LanguageServer

/-- Rust `FileSystemProxy::write_mem_cache`: unconditionally inserts/replaces
the overlay entry (spec §4.1: no error condition, so the `?` in the
callers never fires). -/
def write_mem_cache (s : LanguageServer) (path text : String) : LanguageServer :=
  { s with mem_cache := alistInsert s.mem_cache path text }

/-- Rust `FileSystemProxy::delete_mem_cache`: removes the overlay entry if
present; a no-op otherwise (spec §4.1). -/
def delete_mem_cache (s : LanguageServer) (path : String) : LanguageServer :=
  { s with mem_cache := alistRemove s.mem_cache path }

/-- Rust `FileSystemProxy::read` (spec §4.1): the overlay entry if present,
else disk, else an `IoError`. -/
def fs_read (s : LanguageServer) (path : String) : Except Error String :=
  match alistGet s.mem_cache path with
  | some text => Except.ok text
  | none =>
    match alistGet s.disk path with
    | some text => Except.ok text
    | none => Except.error { msg := "IoError" }

/-- Rust `LanguageServer::take_warnings`: drains the compiler's warning
accumulator, or yields `[]` when no compiler is configured. -/
def take_warnings (s : LanguageServer) : List Warning × LanguageServer :=
  match s.compiler with
  | some compiler => (compiler.warnings, { s with compiler := some { compiler with warnings := [] } })
  | none => ([], s)

/-- Rust `LanguageServer::compile`: fires `progress_reporter.started()`, runs
the external `compiler.compile()` when a compiler is configured (`Ok(vec![])`
otherwise), fires `progress_reporter.finished()`, and only then consults
the result (`let modules = result?`), extending
`modules_compiled_since_last_feedback` on success. -/
def compile (s : LanguageServer) : LanguageServer × Except Error Unit :=
  let s := { s with progress_log := s.progress_log ++ [ProgressEvent.started] }
  let (s, result) :=
    match s.compiler with
    | some compiler =>
      ({ s with
          compiler := some { compiler with warnings := compiler.warnings ++ compiler.compile_warnings }
          progress_log := s.progress_log ++ [ProgressEvent.compile_call] },
        compiler.compile_outcome)
    | none => (s, Except.ok [])
  let s := { s with progress_log := s.progress_log ++ [ProgressEvent.finished] }
  match result with
  | Except.error e => (s, Except.error e)
  | Except.ok modules =>
    ({ s with
        modules_compiled_since_last_feedback :=
          s.modules_compiled_since_last_feedback ++ modules },
      Except.ok ())

/-- Rust `LanguageServer::notified`: runs the handler, then — regardless of the
handler's outcome — drains the warnings and the
modules-compiled-since-last-feedback accumulators and builds the Feedback
from them. -/
def notified (s : LanguageServer)
    (handler : LanguageServer → LanguageServer × Except Error Unit) :
    Feedback × LanguageServer :=
  let (s, result) := handler s
  let (warnings, s) := s.take_warnings
  let modules := s.modules_compiled_since_last_feedback
  let s := { s with modules_compiled_since_last_feedback := [] }
  match result with
  | Except.ok _ => (FeedbackBookKeeper.diagnostics modules warnings, s)
  | Except.error e => (FeedbackBookKeeper.diagnostics_with_error e modules warnings, s)

/-- Rust `LanguageServer::respond`: runs the read-only query handler, then
drains both accumulators and wraps the payload (or the error) with the
Feedback. A panic inside the handler propagates: nothing is drained. -/
def respond {α : Type} (s : LanguageServer)
    (handler : LanguageServer → Except Panic (Except Error α)) :
    Except Panic (Response α × LanguageServer) :=
  match handler s with
  | Except.error p => Except.error p
  | Except.ok result =>
    let (warnings, s) := s.take_warnings
    let modules := s.modules_compiled_since_last_feedback
    let s := { s with modules_compiled_since_last_feedback := [] }
    match result with
    | Except.ok payload =>
      Except.ok ({ payload := some payload
                   feedback := FeedbackBookKeeper.diagnostics modules warnings }, s)
    | Except.error e =>
      Except.ok ({ payload := none
                   feedback := FeedbackBookKeeper.diagnostics_with_error e modules warnings }, s)

end LanguageServer

/-- Rust `lsp_types::TextDocumentContentChangeEvent`: the server only reads its
`text` field. -/
structure TextDocumentContentChangeEvent where
  text : String
deriving DecidableEq, Repr

/-- Rust `DidOpenTextDocumentParams` (URI represented by its path). -/
structure DidOpenTextDocumentParams where
  uri : String
  text : String
deriving DecidableEq, Repr

/-- Rust `DidSaveTextDocumentParams` (URI represented by its path). -/
structure DidSaveTextDocumentParams where
  uri : String
deriving DecidableEq, Repr

/-- Rust `DidCloseTextDocumentParams` (URI represented by its path). -/
structure DidCloseTextDocumentParams where
  uri : String
deriving DecidableEq, Repr

/-- Rust `DidChangeTextDocumentParams`: the document URI (by its path) and the
sequence of content changes. -/
structure DidChangeTextDocumentParams where
  uri : String
  content_changes : List TextDocumentContentChangeEvent
deriving DecidableEq, Repr

namespace LanguageServer

/-- Rust `LanguageServer::compile_please`. -/
def compile_please (s : LanguageServer) : Feedback × LanguageServer :=
  s.notified compile

/-- Rust `LanguageServer::text_document_did_open`: store the opened text in the
overlay and compile. -/
def text_document_did_open (s : LanguageServer) (params : DidOpenTextDocumentParams) :
    Feedback × LanguageServer :=
  s.notified (fun this =>
    let this := this.write_mem_cache params.uri params.text
    this.compile)

/-- Rust `LanguageServer::text_document_did_save`: drop the overlay entry and
compile. -/
def text_document_did_save (s : LanguageServer) (params : DidSaveTextDocumentParams) :
    Feedback × LanguageServer :=
  s.notified (fun this =>
    let this := this.delete_mem_cache params.uri
    this.compile)

/-- Rust `LanguageServer::text_document_did_close`: drop the overlay entry;
no compile. -/
def text_document_did_close (s : LanguageServer) (params : DidCloseTextDocumentParams) :
    Feedback × LanguageServer :=
  s.notified (fun this =>
    (this.delete_mem_cache params.uri, Except.ok ()))

/-- Rust `LanguageServer::text_document_did_change`: the code takes
`params.content_changes.into_iter().next()` — the FIRST change of the
sequence — writes its text to the overlay and compiles; with no changes
nothing happens. -/
def text_document_did_change (s : LanguageServer) (params : DidChangeTextDocumentParams) :
    Feedback × LanguageServer :=
  s.notified (fun this =>
    match params.content_changes with
    | [] => (this, Except.ok ())
    | changes :: _ =>
      let this := this.write_mem_cache params.uri changes.text
      this.compile)

/-- Rust `LanguageServer::module_for_uri`: with no compiler the `and_then`
closure never runs and the result is `None`; with a compiler the code
evaluates `uri_to_module_name(uri, &self.project_root).expect("uri to
module name")`, which PANICS when the mapping yields `None`, and otherwise
looks the name up in `compiler.modules`. -/
def module_for_uri (ext : Collab) (s : LanguageServer) (uri : String) :
    Except Panic (Option build.Module) :=
  match s.compiler with
  | none => Except.ok none
  | some compiler =>
    match ext.uri_to_module_name uri s.project_root with
    | none => Except.error "uri to module name"
    | some module_name => Except.ok (alistGet compiler.modules module_name)

/-- Rust `LanguageServer::node_at_position`: module lookup, then
`LineNumbers::new(&module.code)`, position-to-offset conversion, and
`module.find_node(byte_index)`. -/
def node_at_position (ext : Collab) (s : LanguageServer)
    (params : lsp.TextDocumentPositionParams) :
    Except Panic (Option (LineNumbers × Located)) := do
  let module? ← s.module_for_uri ext params.uri
  match module? with
  | none => pure none
  | some m =>
    let line_numbers := LineNumbers.new m.code
    let byte_index := line_numbers.byte_index params.position.line params.position.character
    match m.find_node byte_index with
    | none => pure none
    | some node => pure (some (line_numbers, node))

/-- Rust `LanguageServer::hover`: only an `ExpressionNode` yields a payload:
the pretty-printed type wrapped in a gleam code fence plus the
expression's span converted through the current module's `LineNumbers`. -/
def hover (ext : Collab) (s : LanguageServer) (params : lsp.TextDocumentPositionParams) :
    Except Panic (Response (Option lsp.Hover) × LanguageServer) :=
  s.respond (fun this => do
    let found? ← this.node_at_position ext params
    match found? with
    | none => pure (Except.ok none)
    | some (line_numbers, found) =>
      match found with
      | Located.Statement _ => pure (Except.ok none)
      | Located.Expression expression =>
        let type_str := expression.type_.pretty
        let contents := "```gleam\n" ++ type_str ++ "\n```"
        pure (Except.ok (some
          { contents := contents
            range := some (src_span_to_lsp_range expression.location line_numbers) })))

/-- Rust `LanguageServer::goto_definition`: resolves the node and its
definition location; a same-module definition reuses the request URI and
the current `LineNumbers`, a cross-module one requires the target's entry
in `compiler.sources` (building the `file:///` URI from its path and using
its own `LineNumbers`), and yields `None` when it is not cached. -/
def goto_definition (ext : Collab) (s : LanguageServer)
    (params : lsp.TextDocumentPositionParams) :
    Except Panic (Response (Option lsp.Location) × LanguageServer) :=
  s.respond (fun this => do
    let found? ← this.node_at_position ext params
    match found? with
    | none => pure (Except.ok none)
    | some (line_numbers, node) =>
      match node.definition_location with
      | none => pure (Except.ok none)
      | some location =>
        match location.module with
        | none =>
          pure (Except.ok (some
            { uri := params.uri
              range := src_span_to_lsp_range location.span line_numbers }))
        | some name =>
          match this.compiler.bind (fun compiler => alistGet compiler.sources name) with
          | none => pure (Except.ok none)
          | some m =>
            let url := "file:///" ++ m.path
            pure (Except.ok (some
              { uri := url
                range := src_span_to_lsp_range location.span m.line_numbers })))

/-- Rust `LanguageServer::completion_for_import`: `None` without a compiler;
otherwise the keys of `get_importable_modules()` chained with the names of
the project modules whose origin `is_src`, each turned into a completion
item with no kind and no documentation. -/
def completion_for_import (s : LanguageServer) : Option (List lsp.CompletionItem) :=
  match s.compiler with
  | none => none
  | some compiler =>
    let dependencies_modules := compiler.importable_modules
    let project_modules := (compiler.modules.filter (fun p => p.2.origin.is_src)).map (fun p => p.1)
    some ((dependencies_modules ++ project_modules).map (fun label =>
      { label := label, kind := none, documentation := none }))

/-- Rust `LanguageServer::completion`: an unresolved position or a position on
an `Import` statement falls to `completion_for_import`; any other
statement or any expression yields `None`. -/
def completion (ext : Collab) (s : LanguageServer)
    (params : lsp.TextDocumentPositionParams) :
    Except Panic (Response (Option (List lsp.CompletionItem)) × LanguageServer) :=
  s.respond (fun this => do
    let found := (← this.node_at_position ext params).map (fun p => p.2)
    match found with
    | none => pure (Except.ok this.completion_for_import)
    | some (Located.Statement stmt) =>
      match stmt.kind with
      | StatementKind.Import => pure (Except.ok this.completion_for_import)
      | StatementKind.Other => pure (Except.ok none)
    | some (Located.Expression _) => pure (Except.ok none))

/-- Rust `str::lines().count()`: the number of lines of a string, where
lines are separated by line feeds and a trailing line feed does not start
a further line (the empty string has zero lines). -/
def rust_lines_count (text : String) : Nat :=
  if text = "" then 0
  else
    let feeds := (text.data.filter (fun c => c == '\n')).length
    if text.data.getLast? = some '\n' then feeds else feeds + 1

/-- Rust `LanguageServer::format`: read the current text through the
`FileSystemProxy` (overlay first), run `gleam_core::format::pretty`, and
return one `TextEdit` replacing from `(0,0)` to `(line_count, 0)` where
`line_count` is `src.lines().count()` of the ORIGINAL text. -/
def format (ext : Collab) (s : LanguageServer) (uri : String) :
    Except Panic (Response (List lsp.TextEdit) × LanguageServer) :=
  s.respond (fun this =>
    Except.ok (do
      let src ← this.fs_read uri
      let new_text ← ext.format_pretty src uri
      let line_count := rust_lines_count src
      Except.ok [{ range := ⟨⟨0, 0⟩, ⟨line_count, 0⟩⟩, new_text := new_text }]))

end LanguageServer

/-- The warnings currently sitting in the compiler's accumulator (empty
when no compiler is configured). -/
def LanguageServer.accumulated_warnings (s : LanguageServer) : List Warning :=
  match s.compiler with
  | some compiler => compiler.warnings
  | none => []

theorem take_warnings_spec (s : LanguageServer) :
    s.take_warnings.1 = s.accumulated_warnings ∧
    (s.take_warnings.2).accumulated_warnings = [] ∧
    (s.take_warnings.2).modules_compiled_since_last_feedback =
      s.modules_compiled_since_last_feedback := by
  obtain ⟨root, compiler, mc, dk, mods, log⟩ := s
  cases compiler <;>
    simp [LanguageServer.take_warnings, LanguageServer.accumulated_warnings]

/-- C4: every run of the internal compile operation fires the
progress-started hook before and the progress-finished hook after the
external compile call, unconditionally: with a compiler configured the
progress log grows by started/compile-call/finished in that order
whatever the external result; with no compiler it grows by
started/finished, the operation succeeds, and the module accumulator is
unchanged (the external call returned the empty module list). -/
theorem compile_fires_progress_hooks_unconditionally (s : LanguageServer) :
    (s.compile.1.progress_log =
      s.progress_log ++
        (match s.compiler with
         | some _ => [ProgressEvent.started, ProgressEvent.compile_call, ProgressEvent.finished]
         | none => [ProgressEvent.started, ProgressEvent.finished])) ∧
    (LanguageServer.compile { s with compiler := none }).2 = Except.ok () ∧
    (LanguageServer.compile { s with compiler := none }).1.modules_compiled_since_last_feedback =
      s.modules_compiled_since_last_feedback := by
  obtain ⟨root, compiler, mc, dk, mods, log⟩ := s
  refine ⟨?_, ?_, ?_⟩
  · cases compiler with
    | none => simp [LanguageServer.compile]
    | some compiler =>
      obtain ⟨ms, srcs, im, ws, outcome, cw⟩ := compiler
      cases outcome <;> simp [LanguageServer.compile]
  · simp [LanguageServer.compile]
  · simp [LanguageServer.compile]

/-- C10: a failing compile leaves the modules-compiled-since-last-feedback
accumulator exactly as it was; names are only appended when the external
compile succeeds, in which case exactly the returned names are appended. -/
theorem compile_failure_preserves_modules_accumulator (s : LanguageServer) :
    (∀ e : Error, s.compile.2 = Except.error e →
      s.compile.1.modules_compiled_since_last_feedback =
        s.modules_compiled_since_last_feedback) ∧
    (s.compile.2 = Except.ok () →
      ∃ modules : List String,
        s.compile.1.modules_compiled_since_last_feedback =
          s.modules_compiled_since_last_feedback ++ modules ∧
        (match s.compiler with
         | some compiler => compiler.compile_outcome = Except.ok modules
         | none => modules = [])) := by
  obtain ⟨root, compiler, mc, dk, mods, log⟩ := s
  cases compiler with
  | none =>
    refine ⟨?_, ?_⟩
    · intro e he
      simp [LanguageServer.compile] at he
    · intro _
      exact ⟨[], by simp [LanguageServer.compile], by simp⟩
  | some compiler =>
    obtain ⟨ms, srcs, im, ws, outcome, cw⟩ := compiler
    cases outcome with
    | error e' =>
      refine ⟨?_, ?_⟩
      · intro e he
        simp [LanguageServer.compile]
      · intro h
        simp [LanguageServer.compile] at h
    | ok modules =>
      refine ⟨?_, ?_⟩
      · intro e he
        simp [LanguageServer.compile] at he
      · intro _
        exact ⟨modules, by simp [LanguageServer.compile], by simp⟩

/-- A server whose configured compiler's next external compile fails. -/
def failingServer : LanguageServer :=
  { project_root := "/proj"
    compiler := some
      { modules := []
        sources := []
        importable_modules := []
        warnings := []
        compile_outcome := Except.error { msg := "compile failed" }
        compile_warnings := [] }
    mem_cache := []
    disk := []
    modules_compiled_since_last_feedback := ["stale_module"]
    progress_log := [] }

/-- Witness for C10: on a concrete server whose external compile fails,
the compile operation really fails and the modules accumulator is exactly
what it was before. -/
theorem compile_failure_preserves_modules_accumulator_witness :
    failingServer.compile.2 = Except.error { msg := "compile failed" } ∧
    failingServer.compile.1.modules_compiled_since_last_feedback = ["stale_module"] :=
  ⟨by rfl,
    (compile_failure_preserves_modules_accumulator failingServer).1
      { msg := "compile failed" } (by rfl)⟩

/-- C3: every handler invocation drains both accumulators exactly once:
whatever the handler did and however it ended, after `notified` (the
lifecycle wrapper) and after a completed `respond` (the query wrapper)
the warning accumulator and the modules-compiled-since-last-feedback
accumulator are empty, and the returned Feedback carries exactly the
warnings and module names that were sitting in the accumulators at drain
time — so a warning drained into one Feedback can never also appear in
the Feedback of another invocation. -/
theorem handlers_drain_accumulators_exactly_once :
    (∀ (s : LanguageServer) (handler : LanguageServer → LanguageServer × Except Error Unit),
      (s.notified handler).2.modules_compiled_since_last_feedback = [] ∧
      (s.notified handler).2.accumulated_warnings = [] ∧
      (s.notified handler).1.warnings = (handler s).1.accumulated_warnings ∧
      (s.notified handler).1.modules_touched =
        (handler s).1.modules_compiled_since_last_feedback) ∧
    (∀ (α : Type) (s : LanguageServer)
        (handler : LanguageServer → Except Panic (Except Error α))
        (r : Response α) (s' : LanguageServer),
      s.respond handler = Except.ok (r, s') →
      s'.modules_compiled_since_last_feedback = [] ∧
      s'.accumulated_warnings = [] ∧
      r.feedback.warnings = s.accumulated_warnings ∧
      r.feedback.modules_touched = s.modules_compiled_since_last_feedback) := by
  constructor
  · intro s handler
    have hspec := take_warnings_spec (handler s).1
    unfold LanguageServer.notified
    rcases hh : handler s with ⟨s1, result⟩
    rw [hh] at hspec
    rcases ht : s1.take_warnings with ⟨ws, s2⟩
    rw [ht] at hspec
    obtain ⟨h1, h2, h3⟩ := hspec
    cases result <;>
      simp_all [FeedbackBookKeeper.diagnostics, FeedbackBookKeeper.diagnostics_with_error,
        LanguageServer.accumulated_warnings]
  · intro α s handler r s' hresp
    have hspec := take_warnings_spec s
    rcases ht : s.take_warnings with ⟨ws, s2⟩
    rw [ht] at hspec
    obtain ⟨h1, h2, h3⟩ := hspec
    unfold LanguageServer.respond at hresp
    cases hh : handler s with
    | error p =>
      rw [hh] at hresp
      simp at hresp
    | ok result =>
      rw [hh, ht] at hresp
      cases result with
      | ok payload =>
        simp only [Except.ok.injEq, Prod.mk.injEq] at hresp
        obtain ⟨hr, hs'⟩ := hresp
        subst hr hs'
        simp_all [FeedbackBookKeeper.diagnostics, LanguageServer.accumulated_warnings]
      | error e =>
        simp only [Except.ok.injEq, Prod.mk.injEq] at hresp
        obtain ⟨hr, hs'⟩ := hresp
        subst hr hs'
        simp_all [FeedbackBookKeeper.diagnostics_with_error, LanguageServer.accumulated_warnings]

theorem take_warnings_preserves (s : LanguageServer) :
    (s.take_warnings.2).mem_cache = s.mem_cache ∧
    (s.take_warnings.2).progress_log = s.progress_log := by
  obtain ⟨root, compiler, mc, dk, mods, log⟩ := s
  cases compiler <;> simp [LanguageServer.take_warnings]

theorem notified_state_effects (s : LanguageServer)
    (handler : LanguageServer → LanguageServer × Except Error Unit) :
    (s.notified handler).2.mem_cache = (handler s).1.mem_cache ∧
    (s.notified handler).2.progress_log = (handler s).1.progress_log := by
  have hp := take_warnings_preserves (handler s).1
  unfold LanguageServer.notified
  rcases hh : handler s with ⟨s1, result⟩
  rw [hh] at hp
  rcases ht : s1.take_warnings with ⟨ws, s2⟩
  rw [ht] at hp
  cases result <;> simp_all

theorem compile_state_effects (s : LanguageServer) :
    s.compile.1.mem_cache = s.mem_cache ∧
    s.compile.1.progress_log =
      s.progress_log ++
        (match s.compiler with
         | some _ => [ProgressEvent.started, ProgressEvent.compile_call, ProgressEvent.finished]
         | none => [ProgressEvent.started, ProgressEvent.finished]) := by
  obtain ⟨root, compiler, mc, dk, mods, log⟩ := s
  cases compiler with
  | none => simp [LanguageServer.compile]
  | some compiler =>
    obtain ⟨ms, srcs, im, ws, outcome, cw⟩ := compiler
    cases outcome <;> simp [LanguageServer.compile]

theorem alistGet_insert_self {α : Type} (l : List (String × α)) (k : String) (v : α) :
    alistGet (alistInsert l k v) k = some v := by
  simp [alistGet, alistInsert]

/-- Counterexample for C2: with a change sequence holding two different
full texts, the overlay ends up with the FIRST text, not the final one,
so "replaced with the final full-document text" fails on this input. -/
def didChangeServer : LanguageServer :=
  { project_root := "/p"
    compiler := none
    mem_cache := []
    disk := []
    modules_compiled_since_last_feedback := []
    progress_log := [] }

/-- The two-change notification used by the C2 counterexample. -/
def didChangeParams : DidChangeTextDocumentParams :=
  { uri := "/p/src/a.gleam"
    content_changes := [{ text := "first text" }, { text := "final text" }] }

/-- C2 counterexample: after `did_change` with changes
`["first text", "final text"]` the overlay entry is `"first text"` — not
the final text of the sequence, refuting the claim as stated. -/
theorem text_document_did_change_counterexample :
    alistGet (didChangeServer.text_document_did_change didChangeParams).2.mem_cache
        "/p/src/a.gleam" = some "first text" ∧
    (some "first text" : Option String) ≠ some "final text" :=
  ⟨by rfl, by decide⟩

/-- C2 (amended): for every did_change notification, the overlay entry for
the document's path is replaced with the FIRST change's full-document
text (the only change under full-document sync) and a compile is
triggered; if the change sequence is empty the event is a no-op: no
overlay write and no compile (the progress log does not grow). -/
theorem text_document_did_change_first_change (s : LanguageServer)
    (params : DidChangeTextDocumentParams) :
    (params.content_changes = [] →
      (s.text_document_did_change params).2.mem_cache = s.mem_cache ∧
      (s.text_document_did_change params).2.progress_log = s.progress_log) ∧
    (∀ (c : TextDocumentContentChangeEvent) (rest : List TextDocumentContentChangeEvent),
      params.content_changes = c :: rest →
      alistGet (s.text_document_did_change params).2.mem_cache params.uri = some c.text ∧
      (s.text_document_did_change params).2.progress_log =
        s.progress_log ++
          (match s.compiler with
           | some _ => [ProgressEvent.started, ProgressEvent.compile_call, ProgressEvent.finished]
           | none => [ProgressEvent.started, ProgressEvent.finished])) := by
  constructor
  · intro hempty
    unfold LanguageServer.text_document_did_change
    rw [hempty]
    have h := notified_state_effects s (fun this =>
      match ([] : List TextDocumentContentChangeEvent) with
      | [] => (this, Except.ok ())
      | changes :: _ =>
        let this := this.write_mem_cache params.uri changes.text
        this.compile)
    exact h
  · intro c rest hcons
    unfold LanguageServer.text_document_did_change
    rw [hcons]
    have h := notified_state_effects s (fun this =>
      match c :: rest with
      | [] => (this, Except.ok ())
      | changes :: _ =>
        let this := this.write_mem_cache params.uri changes.text
        this.compile)
    obtain ⟨hmc, hlog⟩ := h
    simp only at hmc hlog
    have hcomp := compile_state_effects (s.write_mem_cache params.uri c.text)
    constructor
    · rw [hmc, hcomp.1]
      exact alistGet_insert_self s.mem_cache params.uri c.text
    · rw [hlog, hcomp.2]
      rfl

/-- Witness for C2 (amended): on the concrete two-change notification the
overlay holds the first change's text, and on an empty change sequence the
overlay is untouched. -/
theorem text_document_did_change_first_change_witness :
    alistGet (didChangeServer.text_document_did_change didChangeParams).2.mem_cache
        "/p/src/a.gleam" = some "first text" ∧
    (didChangeServer.text_document_did_change
        { uri := "/p/src/a.gleam", content_changes := [] }).2.mem_cache =
      didChangeServer.mem_cache :=
  ⟨((text_document_did_change_first_change didChangeServer didChangeParams).2
      { text := "first text" } [{ text := "final text" }] (by rfl)).1,
    ((text_document_did_change_first_change didChangeServer
      { uri := "/p/src/a.gleam", content_changes := [] }).1 (by rfl)).1⟩

/-- A warning value used by concrete evaluations. -/
def warningW : Warning :=
  { path := "/proj/src/app.gleam"
    src := "fn main() { 1 }"
    warning := type_.Warning.UnusedLiteral { start := 12, «end» := 13 } }

/-- A server holding one accumulated warning and one module name awaiting
the next Feedback. -/
def serverWithPending : LanguageServer :=
  { project_root := "/proj"
    compiler := some
      { modules := []
        sources := []
        importable_modules := []
        warnings := [warningW]
        compile_outcome := Except.ok []
        compile_warnings := [] }
    mem_cache := []
    disk := []
    modules_compiled_since_last_feedback := ["app"]
    progress_log := [] }

/-- The query handler used by the C3 witness: a payload-only query. -/
def handlerW : LanguageServer → Except Panic (Except Error Nat) :=
  fun _ => Except.ok (Except.ok 7)

/-- The response the C3 witness expects from `respond`. -/
def responseW : Response Nat :=
  { payload := some 7
    feedback := { compile_error := none, modules_touched := ["app"], warnings := [warningW] } }

/-- The drained server state the C3 witness expects from `respond`. -/
def serverDrained : LanguageServer :=
  { project_root := "/proj"
    compiler := some
      { modules := []
        sources := []
        importable_modules := []
        warnings := []
        compile_outcome := Except.ok []
        compile_warnings := [] }
    mem_cache := []
    disk := []
    modules_compiled_since_last_feedback := []
    progress_log := [] }

/-- Witness for C3: a completed `respond` on the concrete pending server
leaves both accumulators empty and reports exactly the pending warning
and module name. -/
theorem handlers_drain_accumulators_exactly_once_witness :
    serverDrained.modules_compiled_since_last_feedback = [] ∧
    serverDrained.accumulated_warnings = [] ∧
    responseW.feedback.warnings = serverWithPending.accumulated_warnings ∧
    responseW.feedback.modules_touched =
      serverWithPending.modules_compiled_since_last_feedback :=
  handlers_drain_accumulators_exactly_once.2 Nat serverWithPending handlerW
    responseW serverDrained (by rfl)

theorem respond_payload {α : Type} (s : LanguageServer)
    (handler : LanguageServer → Except Panic (Except Error α)) (v : α)
    (hv : handler s = Except.ok (Except.ok v))
    (r : Response α) (s' : LanguageServer)
    (h : s.respond handler = Except.ok (r, s')) :
    r.payload = some v := by
  unfold LanguageServer.respond at h
  rw [hv] at h
  rcases ht : s.take_warnings with ⟨ws, s2⟩
  rw [ht] at h
  simp only [Except.ok.injEq, Prod.mk.injEq] at h
  rw [← h.1]

/-- The collaborator used by the C1 failing input: the URI does not
correspond to a project module, so `uri_to_module_name` yields `none`
(spec §4.4: e.g. a dependency file or a file outside the project root). -/
def collabOutsideProject : Collab :=
  { uri_to_module_name := fun _ _ => none
    format_pretty := fun _ _ => Except.ok "" }

/-- A server with a compiler configured and no cached modules. -/
def serverWithCompilerW : LanguageServer :=
  { project_root := "/proj"
    compiler := some
      { modules := []
        sources := []
        importable_modules := []
        warnings := []
        compile_outcome := Except.ok []
        compile_warnings := [] }
    mem_cache := []
    disk := []
    modules_compiled_since_last_feedback := []
    progress_log := [] }

/-- C1: the claim FAILS on the code. With a compiler configured and a URI
that does not correspond to a project module (`uri_to_module_name` yields
`None`), `module_for_uri` evaluates
`uri_to_module_name(uri, ..).expect("uri to module name")` and PANICS, so
hover, goto_definition and completion all crash instead of returning an
absent result. -/
theorem queries_panic_on_non_project_uri :
    serverWithCompilerW.hover collabOutsideProject
        { uri := "/deps/wibble/src/wibble.gleam", position := { line := 0, character := 0 } } =
      Except.error "uri to module name" ∧
    serverWithCompilerW.goto_definition collabOutsideProject
        { uri := "/deps/wibble/src/wibble.gleam", position := { line := 0, character := 0 } } =
      Except.error "uri to module name" ∧
    serverWithCompilerW.completion collabOutsideProject
        { uri := "/deps/wibble/src/wibble.gleam", position := { line := 0, character := 0 } } =
      Except.error "uri to module name" :=
  ⟨rfl, rfl, rfl⟩

/-- C5: hover on a StatementNode yields payload `None`; hover on an
ExpressionNode yields the pretty-printed inferred type in a gleam code
fence (a non-empty string) with the expression's span converted through
the current module's LineNumbers. -/
theorem hover_statement_none_expression_type (ext : Collab) (s : LanguageServer)
    (params : lsp.TextDocumentPositionParams) (r : Response (Option lsp.Hover))
    (s' : LanguageServer)
    (h : s.hover ext params = Except.ok (r, s')) :
    (∀ ln stmt,
      LanguageServer.node_at_position ext s params =
        Except.ok (some (ln, Located.Statement stmt)) →
      r.payload = some none) ∧
    (∀ ln e,
      LanguageServer.node_at_position ext s params =
        Except.ok (some (ln, Located.Expression e)) →
      r.payload = some (some
        { contents := "```gleam\n" ++ e.type_.pretty ++ "\n```"
          range := some (src_span_to_lsp_range e.location ln) }) ∧
      0 < ("```gleam\n" ++ e.type_.pretty ++ "\n```").length) := by
  unfold LanguageServer.hover at h
  constructor
  · intro ln stmt hnode
    refine respond_payload s _ none ?_ r s' h
    simp only [hnode, bind, Except.bind, pure, Except.pure]
  · intro ln e hnode
    constructor
    · refine respond_payload s _ _ ?_ r s' h
      simp only [hnode, bind, Except.bind, pure, Except.pure]
    · have : ("```gleam\n" ++ e.type_.pretty ++ "\n```").length =
          "```gleam\n".length + e.type_.pretty.length + "\n```".length := by
        rw [String.length_append, String.length_append]
      have h9 : ("```gleam\n" : String).length = 9 := by decide
      rw [this, h9]
      omega

/-- An expression node used by the C5/C9 witnesses. -/
def exprNodeW : ExpressionNode :=
  { type_ := { is_variable := false, pretty := "Int" }
    location := { start := 0, «end» := 1 }
    definition_location := some { module := none, span := { start := 0, «end» := 1 } } }

/-- A project module whose AST search always finds `exprNodeW`. -/
def moduleW : build.Module :=
  { code := "fn main() { 1 }"
    origin := Origin.Src
    find_node := fun _ => some (Located.Expression exprNodeW) }

/-- A collaborator mapping every URI to module name `app`. -/
def collabAppW : Collab :=
  { uri_to_module_name := fun _ _ => some "app"
    format_pretty := fun _ _ => Except.ok "" }

/-- A server whose compiler caches exactly the module `app`. -/
def serverAppW : LanguageServer :=
  { project_root := "/proj"
    compiler := some
      { modules := [("app", moduleW)]
        sources := []
        importable_modules := []
        warnings := []
        compile_outcome := Except.ok []
        compile_warnings := [] }
    mem_cache := []
    disk := []
    modules_compiled_since_last_feedback := []
    progress_log := [] }

/-- The hover response the C5 witness expects. -/
def responseHoverW : Response (Option lsp.Hover) :=
  { payload := some (some
      { contents := "```gleam\nInt\n```"
        range := some
          { start := { line := 0, character := 0 }
            «end» := { line := 0, character := 1 } } })
    feedback := { compile_error := none, modules_touched := [], warnings := [] } }

/-- Witness for C5: hovering the concrete expression node yields the
fenced pretty-printed type with the converted span. -/
theorem hover_statement_none_expression_type_witness :
    responseHoverW.payload = some (some
      { contents := "```gleam\n" ++ exprNodeW.type_.pretty ++ "\n```"
        range := some (src_span_to_lsp_range exprNodeW.location (LineNumbers.new moduleW.code)) }) ∧
    0 < ("```gleam\n" ++ exprNodeW.type_.pretty ++ "\n```").length :=
  (hover_statement_none_expression_type collabAppW serverAppW
      { uri := "/proj/src/app.gleam", position := { line := 0, character := 0 } }
      responseHoverW serverAppW (by rfl)).2
    (LineNumbers.new moduleW.code) exprNodeW (by rfl)

/-- C8: format reads the text through the OverlayFileSystem — when an
overlay entry exists its text (not disk content) is what is formatted —
and returns one edit spanning from `(0,0)` to the start of the line one
past the last line of the original text, carrying the formatter's
output. -/
theorem format_reads_overlay_and_replaces_all (ext : Collab) (s : LanguageServer)
    (uri src out : String)
    (hmem : alistGet s.mem_cache uri = some src)
    (hfmt : ext.format_pretty src uri = Except.ok out)
    (r : Response (List lsp.TextEdit)) (s' : LanguageServer)
    (h : s.format ext uri = Except.ok (r, s')) :
    r.payload = some
      [{ range := { start := { line := 0, character := 0 }
                    «end» := { line := LanguageServer.rust_lines_count src, character := 0 } }
         new_text := out }] := by
  unfold LanguageServer.format at h
  refine respond_payload s _ _ ?_ r s' h
  have hread : s.fs_read uri = Except.ok src := by
    unfold LanguageServer.fs_read
    rw [hmem]
  simp only [hread, hfmt, bind, Except.bind, pure, Except.pure]

/-- The server used by the C8 witness: the overlay and the disk disagree
about the document. -/
def serverOverlayW : LanguageServer :=
  { project_root := "/proj"
    compiler := none
    mem_cache := [("/proj/src/app.gleam", "a\nb")]
    disk := [("/proj/src/app.gleam", "stale disk text")]
    modules_compiled_since_last_feedback := []
    progress_log := [] }

/-- The collaborator used by the C8 witness: the formatter prepends a
marker so its output is distinguishable from its input. -/
def collabFormatW : Collab :=
  { uri_to_module_name := fun _ _ => none
    format_pretty := fun src _ => Except.ok ("fmt:" ++ src) }

/-- The format response the C8 witness expects: the overlay text `"a\nb"`
(two lines, no trailing line feed) was formatted, not the disk text, and
the edit spans `(0,0)` to `(2,0)`. -/
def responseFormatW : Response (List lsp.TextEdit) :=
  { payload := some
      [{ range := { start := { line := 0, character := 0 }
                    «end» := { line := 2, character := 0 } }
         new_text := "fmt:a\nb" }]
    feedback := { compile_error := none, modules_touched := [], warnings := [] } }

/-- Witness for C8 on the concrete overlay/disk disagreement. -/
theorem format_reads_overlay_and_replaces_all_witness :
    responseFormatW.payload = some
      [{ range := { start := { line := 0, character := 0 }
                    «end» := { line := LanguageServer.rust_lines_count "a\nb", character := 0 } }
         new_text := "fmt:a\nb" }] :=
  format_reads_overlay_and_replaces_all collabFormatW serverOverlayW
    "/proj/src/app.gleam" "a\nb" "fmt:a\nb" (by rfl) (by rfl)
    responseFormatW serverOverlayW (by rfl)

/-- C9: for a goto_definition request whose node has a definition
location: a same-module definition (no module name) reuses the request's
URI and the current module's LineNumbers; a cross-module definition uses
the cached target's `file:///` URI and the target's own LineNumbers when
its metadata is cached in `compiler.sources`, and yields payload `None`
(not a failure) when it is not cached. -/
theorem goto_definition_resolution (ext : Collab) (s : LanguageServer)
    (params : lsp.TextDocumentPositionParams) (r : Response (Option lsp.Location))
    (s' : LanguageServer)
    (h : s.goto_definition ext params = Except.ok (r, s'))
    (ln : LineNumbers) (node : Located)
    (hnode : LanguageServer.node_at_position ext s params = Except.ok (some (ln, node))) :
    (∀ span, node.definition_location = some { module := none, span := span } →
      r.payload = some (some { uri := params.uri, range := src_span_to_lsp_range span ln })) ∧
    (∀ name span compiler,
      node.definition_location = some { module := some name, span := span } →
      s.compiler = some compiler →
      (alistGet compiler.sources name = none → r.payload = some none) ∧
      (∀ info, alistGet compiler.sources name = some info →
        r.payload = some (some
          { uri := "file:///" ++ info.path
            range := src_span_to_lsp_range span info.line_numbers }))) := by
  unfold LanguageServer.goto_definition at h
  constructor
  · intro span hdef
    refine respond_payload s _ _ ?_ r s' h
    simp only [hnode, hdef, bind, Except.bind, pure, Except.pure]
  · intro name span compiler hdef hcomp
    constructor
    · intro hsrc
      refine respond_payload s _ _ ?_ r s' h
      simp only [hnode, hdef, hcomp, hsrc, bind, Except.bind, pure, Except.pure, Option.bind]
    · intro info hsrc
      refine respond_payload s _ _ ?_ r s' h
      simp only [hnode, hdef, hcomp, hsrc, bind, Except.bind, pure, Except.pure, Option.bind]

/-- The goto response the C9 witness expects: the definition is in the
current module, so the request URI and the current LineNumbers are
reused. -/
def responseGotoW : Response (Option lsp.Location) :=
  { payload := some (some
      { uri := "/proj/src/app.gleam"
        range := { start := { line := 0, character := 0 }
                   «end» := { line := 0, character := 1 } } })
    feedback := { compile_error := none, modules_touched := [], warnings := [] } }

/-- Witness for C9: the concrete same-module definition resolves to the
request URI with the span converted through the current LineNumbers. -/
theorem goto_definition_resolution_witness :
    responseGotoW.payload = some (some
      { uri := "/proj/src/app.gleam"
        range := src_span_to_lsp_range { start := 0, «end» := 1 }
          (LineNumbers.new moduleW.code) }) :=
  (goto_definition_resolution collabAppW serverAppW
      { uri := "/proj/src/app.gleam", position := { line := 0, character := 0 } }
      responseGotoW serverAppW (by rfl)
      (LineNumbers.new moduleW.code) (Located.Expression exprNodeW) (by rfl)).1
    { start := 0, «end» := 1 } (by rfl)

/-- The names of the project modules whose origin is project-source
(the `filter(origin.is_src)` step of `completion_for_import`). -/
def LspProjectCompiler.project_src_names (compiler : LspProjectCompiler) : List String :=
  (compiler.modules.filter (fun p => p.2.origin.is_src)).map (fun p => p.1)

/-- The completion items `completion_for_import` builds: the chained
dependency and project-source names as plain items. -/
def import_completion_items (compiler : LspProjectCompiler) : List lsp.CompletionItem :=
  (compiler.importable_modules ++ compiler.project_src_names).map
    (fun label => { label := label, kind := none, documentation := none })

theorem completion_for_import_eq (s : LanguageServer) :
    (s.compiler = none → s.completion_for_import = none) ∧
    (∀ compiler, s.compiler = some compiler →
      s.completion_for_import = some (import_completion_items compiler)) := by
  constructor
  · intro hc
    unfold LanguageServer.completion_for_import
    rw [hc]
  · intro compiler hc
    unfold LanguageServer.completion_for_import
    rw [hc]
    rfl

/-- A project-source module involved in the C6 duplicate counterexample. -/
def dupModule : build.Module :=
  { code := ""
    origin := Origin.Src
    find_node := fun _ => none }

/-- The C6 counterexample server: the dependency importables and the
project modules both contain the name `wibble`. -/
def dupServer : LanguageServer :=
  { project_root := "/proj"
    compiler := some
      { modules := [("wibble", dupModule)]
        sources := []
        importable_modules := ["wibble"]
        warnings := []
        compile_outcome := Except.ok []
        compile_warnings := [] }
    mem_cache := []
    disk := []
    modules_compiled_since_last_feedback := []
    progress_log := [] }

/-- C6 counterexample: when a dependency module name coincides with a
project-source module name, import completion lists the item twice — the
code chains the two name lists without removing duplicates, refuting
"the union, without duplicates". -/
theorem completion_union_counterexample :
    (dupServer.completion collabAppW
        { uri := "/proj/src/app.gleam", position := { line := 0, character := 0 } }).toOption.map
        (fun p => p.1.payload) =
      some (some (some
        [{ label := "wibble", kind := none, documentation := none },
         { label := "wibble", kind := none, documentation := none }])) ∧
    ¬ ([{ label := "wibble", kind := none, documentation := none },
        { label := "wibble", kind := none, documentation := none }] :
        List lsp.CompletionItem).Nodup := by
  constructor
  · rfl
  · decide

/-- C6 (amended): completion in an import context (unresolved position or
a position on an import statement) returns the CONCATENATION of
every importable dependency-module name and every project-source-origin
module name, as plain items with no documentation; test-origin names never
contribute; the list is duplicate-free whenever the dependency names and
the project module names do not overlap (the code performs no
deduplication); and for any other statement or expression context the
payload is `None`. -/
theorem completion_import_concatenation (ext : Collab) (s : LanguageServer)
    (params : lsp.TextDocumentPositionParams)
    (r : Response (Option (List lsp.CompletionItem))) (s' : LanguageServer)
    (h : s.completion ext params = Except.ok (r, s')) :
    ((LanguageServer.node_at_position ext s params = Except.ok none ∨
      (∃ ln d, LanguageServer.node_at_position ext s params =
        Except.ok (some (ln,
          Located.Statement { kind := StatementKind.Import, definition_location := d })))) →
      (∀ compiler, s.compiler = some compiler →
        r.payload = some (some (import_completion_items compiler))) ∧
      (s.compiler = none → r.payload = some none)) ∧
    (∀ ln d, LanguageServer.node_at_position ext s params =
        Except.ok (some (ln,
          Located.Statement { kind := StatementKind.Other, definition_location := d })) →
      r.payload = some none) ∧
    (∀ ln e, LanguageServer.node_at_position ext s params =
        Except.ok (some (ln, Located.Expression e)) →
      r.payload = some none) ∧
    (∀ compiler : LspProjectCompiler,
      (∀ nm, nm ∈ compiler.project_src_names →
        ∃ m, (nm, m) ∈ compiler.modules ∧ m.origin = Origin.Src) ∧
      (∀ item, item ∈ import_completion_items compiler →
        item.kind = none ∧ item.documentation = none) ∧
      (compiler.importable_modules.Nodup →
        (compiler.modules.map (fun p => p.1)).Nodup →
        (∀ nm, nm ∈ compiler.importable_modules →
          nm ∉ compiler.modules.map (fun p => p.1)) →
        (import_completion_items compiler).Nodup)) := by
  unfold LanguageServer.completion at h
  refine ⟨?_, ?_, ?_, ?_⟩
  · intro himport
    have hpayload : r.payload = some s.completion_for_import := by
      rcases himport with hnone | ⟨ln, d, hstmt⟩
      · refine respond_payload s _ _ ?_ r s' h
        simp only [hnone, bind, Except.bind, Option.map_none', pure, Except.pure]
      · refine respond_payload s _ _ ?_ r s' h
        simp only [hstmt, bind, Except.bind, Option.map_some', pure, Except.pure]
    constructor
    · intro compiler hc
      rw [hpayload, (completion_for_import_eq s).2 compiler hc]
    · intro hc
      rw [hpayload, (completion_for_import_eq s).1 hc]
  · intro ln d hstmt
    refine respond_payload s _ _ ?_ r s' h
    simp only [hstmt, bind, Except.bind, Option.map_some', pure, Except.pure]
  · intro ln e hexpr
    refine respond_payload s _ _ ?_ r s' h
    simp only [hexpr, bind, Except.bind, Option.map_some', pure, Except.pure]
  · intro compiler
    refine ⟨?_, ?_, ?_⟩
    · intro nm hnm
      unfold LspProjectCompiler.project_src_names at hnm
      obtain ⟨⟨nm', m⟩, hpmem, hpeq⟩ := List.mem_map.mp hnm
      obtain ⟨hmem, hsrc⟩ := List.mem_filter.mp hpmem
      have hpeq' : nm' = nm := hpeq
      subst hpeq'
      refine ⟨m, ?_, ?_⟩
      · exact hmem
      · cases ho : m.origin with
        | Src => rfl
        | Test =>
          rw [ho] at hsrc
          simp [Origin.is_src] at hsrc
    · intro item hitem
      unfold import_completion_items at hitem
      obtain ⟨label, _, heq⟩ := List.mem_map.mp hitem
      rw [← heq]
      exact ⟨rfl, rfl⟩
    · intro hdep hkeys hdisj
      have hsub : compiler.project_src_names.Sublist
          (compiler.modules.map (fun p => p.1)) := by
        unfold LspProjectCompiler.project_src_names
        exact (List.filter_sublist _).map _
      unfold import_completion_items
      refine List.Nodup.map ?_ ?_
      · intro a b hab
        exact congrArg lsp.CompletionItem.label hab
      · refine List.Nodup.append hdep (List.Nodup.sublist hsub hkeys) ?_
        intro a ha hb
        exact hdisj a ha (hsub.subset hb)

/-- A project-source module for the C6 witness. -/
def srcModuleW : build.Module :=
  { code := ""
    origin := Origin.Src
    find_node := fun _ => none }

/-- A test-origin module for the C6 witness. -/
def testModuleW : build.Module :=
  { code := ""
    origin := Origin.Test
    find_node := fun _ => none }

/-- The C6 witness compiler: one dependency module, one source module and
one test module. -/
def importCompilerW : LspProjectCompiler :=
  { modules := [("app", srcModuleW), ("app_test", testModuleW)]
    sources := []
    importable_modules := ["dep_a"]
    warnings := []
    compile_outcome := Except.ok []
    compile_warnings := [] }

/-- The C6 witness server. -/
def importServerW : LanguageServer :=
  { project_root := "/proj"
    compiler := some importCompilerW
    mem_cache := []
    disk := []
    modules_compiled_since_last_feedback := []
    progress_log := [] }

/-- A collaborator resolving every URI to a module name that is not
cached, so completion lands in the unresolved-position (import) case. -/
def collabMissingW : Collab :=
  { uri_to_module_name := fun _ _ => some "missing"
    format_pretty := fun _ _ => Except.ok "" }

/-- The completion response the C6 witness expects: the dependency name
then the source module name, with the test module absent. -/
def responseCompletionW : Response (Option (List lsp.CompletionItem)) :=
  { payload := some (some
      [{ label := "dep_a", kind := none, documentation := none },
       { label := "app", kind := none, documentation := none }])
    feedback := { compile_error := none, modules_touched := [], warnings := [] } }

/-- Witness for C6 (amended): on the concrete server the import
completion is the dependency/source concatenation (test module excluded)
and, the two name lists being disjoint, the items are duplicate-free. -/
theorem completion_import_concatenation_witness :
    responseCompletionW.payload = some (some (import_completion_items importCompilerW)) ∧
    (import_completion_items importCompilerW).Nodup :=
  ⟨((completion_import_concatenation collabMissingW importServerW
        { uri := "/proj/src/app.gleam", position := { line := 0, character := 0 } }
        responseCompletionW importServerW (by rfl)).1 (Or.inl (by rfl))).1
      importCompilerW (by rfl),
    ((completion_import_concatenation collabMissingW importServerW
        { uri := "/proj/src/app.gleam", position := { line := 0, character := 0 } }
        responseCompletionW importServerW (by rfl)).2.2.2 importCompilerW).2.2
      (by decide) (by decide) (by decide)⟩
